import Mathlib

/-!
Shallow embedding of the beat-api normalization engine and continuation
orchestrator (the parsers module of src/innertube together with the
high-level YouTube client methods).  JSON payload fragments are modelled
as structures whose fields mirror the paths the source reads; an absent
JSON branch is `none`.  JavaScript string truthiness (undefined, null and
the empty string are falsy) is modelled by `sTruthy`, and the JavaScript
`||` operator on string-valued expressions by `jsOr`.
-/

namespace BeatApi

/-- Test that the character list s begins with the character list p. -/
def beginsWith : List Char → List Char → Bool
  | [], _ => true
  | _ :: _, [] => false
  | a :: p, b :: s => a == b && beginsWith p s

/-- Truthiness of a JavaScript string value: absent and empty are falsy. -/
def sTruthy : Option String → Bool
  | some s => !s.toList.isEmpty
  | none => false

/-- JavaScript `a || b` on string-valued expressions. -/
def jsOr (a b : Option String) : Option String :=
  if sTruthy a then a else b

/-- JavaScript `a || null` on a string-valued expression. -/
def jsOrNull (a : Option String) : Option String :=
  if sTruthy a then a else none

/-- JavaScript `a || b` on object-valued expressions (all objects are truthy). -/
def objOr {α : Type} (a b : Option α) : Option α :=
  if a.isSome then a else b

/-- JavaScript `s?.startsWith(p)` used as a boolean condition. -/
def oStartsWith : Option String → String → Bool
  | some s, p => beginsWith p.toList s.toList
  | none, _ => false

/-- JavaScript `s.replace(/^VL/, '')`. -/
def stripVL (s : String) : String :=
  if beginsWith "VL".toList s.toList then String.mk (s.toList.drop 2) else s

/-- Consume one or more leading decimal digits; return the remainder, or
none when there is no leading digit. -/
def chompDigits (cs : List Char) : Option (List Char) :=
  let ds := cs.takeWhile Char.isDigit
  if ds.isEmpty then none else some (cs.dropWhile Char.isDigit)

/-- Decision procedure for the duration regex of the source,
matching one or more digits, a colon, one or more digits, and optionally a
colon followed by one or more digits, anchored at both ends. -/
def matchesClockPattern (s : String) : Bool :=
  match chompDigits s.toList with
  | none => false
  | some rest =>
    match rest with
    | ':' :: rest2 =>
      match chompDigits rest2 with
      | none => false
      | some [] => true
      | some (':' :: rest3) =>
        match chompDigits rest3 with
        | some [] => true
        | _ => false
      | some _ => false
    | _ => false

/-- Numeric value of a leading digit sequence, or none without one. -/
def parseDigitsVal (cs : List Char) : Option Int :=
  let ds := cs.takeWhile Char.isDigit
  if ds.isEmpty then none
  else some (Int.ofNat (ds.foldl (fun a c => a * 10 + (c.toNat - 48)) 0))

/-- Model of JavaScript parseInt on an optional string: skip leading
spaces, allow an optional sign, read leading digits, NaN becomes none. -/
def parseIntJS : Option String → Option Int
  | none => none
  | some s =>
    match s.toList.dropWhile (fun c => c = ' ') with
    | '-' :: rest => (parseDigitsVal rest).map Int.neg
    | '+' :: rest => parseDigitsVal rest
    | cs => parseDigitsVal cs

/-- JavaScript `parseInt(x) || null`: NaN and the number 0 are falsy. -/
def intOrNull : Option Int → Option Int
  | some 0 => none
  | x => x

/-- Source helper oddElements: keeps the elements at even 0-based indices. -/
def oddElements {α : Type} : Option (List α) → List α
  | none => []
  | some xs => (xs.enum.filter (fun p => p.1 % 2 == 0)).map Prod.snd

/-! Payload fragment structures.  Field names follow the JSON keys the
source dereferences; a comment gives the full path where intermediate
single-key wrapper objects are collapsed. -/

/-- Fragment browseEndpoint.  pageType stands for the path
browseEndpointContextSupportedConfigs.browseEndpointContextMusicConfig.pageType. -/
structure BrowseEndpoint where
  browseId : Option String := none
  params : Option String := none
  pageType : Option String := none
  deriving DecidableEq

/-- Fragment watchEndpoint.  musicVideoType stands for the path
watchEndpointMusicSupportedConfigs.watchEndpointMusicConfig.musicVideoType. -/
structure WatchEndpoint where
  videoId : Option String := none
  musicVideoType : Option String := none
  deriving DecidableEq

structure WatchPlaylistEndpoint where
  playlistId : Option String := none
  deriving DecidableEq

structure NavigationEndpoint where
  browseEndpoint : Option BrowseEndpoint := none
  watchEndpoint : Option WatchEndpoint := none
  watchPlaylistEndpoint : Option WatchPlaylistEndpoint := none
  deriving DecidableEq

/-- One run of a text block. -/
structure Run where
  text : Option String := none
  navigationEndpoint : Option NavigationEndpoint := none
  deriving DecidableEq

/-- A text object carrying a runs array. -/
structure TextRuns where
  runs : Option (List Run) := none
  deriving DecidableEq

/-- Flex column entry; text stands for
musicResponsiveListItemFlexColumnRenderer.text. -/
structure FlexColumn where
  text : Option TextRuns := none
  deriving DecidableEq

/-- Fixed column entry; text stands for
musicResponsiveListItemFixedColumnRenderer.text. -/
structure FixedColumn where
  text : Option TextRuns := none
  deriving DecidableEq

structure ThumbnailEntry where
  url : Option String := none
  deriving DecidableEq

/-- A musicThumbnailRenderer; thumbnails stands for thumbnail.thumbnails. -/
structure MusicThumbnailRenderer where
  thumbnails : Option (List ThumbnailEntry) := none
  deriving DecidableEq

/-- Badge entry; iconType stands for musicInlineBadgeRenderer.icon.iconType. -/
structure Badge where
  iconType : Option String := none
  deriving DecidableEq

/-- Item overlay; playNavigationEndpoint stands for
musicItemThumbnailOverlayRenderer.content.musicPlayButtonRenderer.playNavigationEndpoint. -/
structure Overlay where
  playNavigationEndpoint : Option NavigationEndpoint := none
  deriving DecidableEq

structure PlaylistItemData where
  videoId : Option String := none
  deriving DecidableEq

/-- Input fragment of parseMusicResponsiveListItemRenderer.  thumbnail
stands for thumbnail.musicThumbnailRenderer. -/
structure MusicResponsiveListItemRenderer where
  flexColumns : Option (List FlexColumn) := none
  fixedColumns : Option (List FixedColumn) := none
  playlistItemData : Option PlaylistItemData := none
  overlay : Option Overlay := none
  navigationEndpoint : Option NavigationEndpoint := none
  thumbnail : Option MusicThumbnailRenderer := none
  badges : Option (List Badge) := none
  deriving DecidableEq

/-- Input fragment of parseMusicTwoRowItemRenderer.  subtitle stands for
subtitle (with its runs array), thumbnailRenderer for
thumbnailRenderer.musicThumbnailRenderer, thumbnailOverlay for
thumbnailOverlay.musicItemThumbnailOverlayRenderer.content.musicPlayButtonRenderer.playNavigationEndpoint. -/
structure MusicTwoRowItemRenderer where
  title : Option TextRuns := none
  subtitle : Option TextRuns := none
  thumbnailRenderer : Option MusicThumbnailRenderer := none
  navigationEndpoint : Option NavigationEndpoint := none
  subtitleBadges : Option (List Badge) := none
  thumbnailOverlay : Option Overlay := none
  deriving DecidableEq

/-- Continuation item marker; token stands for
continuationEndpoint.continuationCommand.token. -/
structure ContinuationItemRenderer where
  token : Option String := none
  deriving DecidableEq

/-- Entry of a shelf contents array. -/
structure ShelfContentItem where
  musicResponsiveListItemRenderer : Option MusicResponsiveListItemRenderer := none
  continuationItemRenderer : Option ContinuationItemRenderer := none
  deriving DecidableEq

structure NextContinuationData where
  continuation : Option String := none
  deriving DecidableEq

structure ContinuationEntry where
  nextContinuationData : Option NextContinuationData := none
  deriving DecidableEq

structure MusicPlaylistShelfRenderer where
  contents : Option (List ShelfContentItem) := none
  continuations : Option (List ContinuationEntry) := none
  deriving DecidableEq

/-- Entry of a grid items array. -/
structure TwoRowWrapper where
  musicTwoRowItemRenderer : Option MusicTwoRowItemRenderer := none
  deriving DecidableEq

structure GridContinuation where
  items : Option (List TwoRowWrapper) := none
  continuations : Option (List ContinuationEntry) := none
  deriving DecidableEq

structure MusicPlaylistShelfContinuation where
  contents : Option (List ShelfContentItem) := none
  continuations : Option (List ContinuationEntry) := none
  deriving DecidableEq

structure GridRenderer where
  items : Option (List TwoRowWrapper) := none
  continuations : Option (List ContinuationEntry) := none
  deriving DecidableEq

structure MusicShelfRenderer where
  contents : Option (List ShelfContentItem) := none
  continuations : Option (List ContinuationEntry) := none
  deriving DecidableEq

/-- Entry of a carousel contents array. -/
structure CarouselContentItem where
  musicTwoRowItemRenderer : Option MusicTwoRowItemRenderer := none
  musicResponsiveListItemRenderer : Option MusicResponsiveListItemRenderer := none
  deriving DecidableEq

structure MusicCarouselShelfRenderer where
  contents : Option (List CarouselContentItem) := none
  deriving DecidableEq

/-- The renderers parseSectionContent probes inside a section-list
continuation section (the source passes the section object itself, which
is duck-typed; this structure carries the three probed keys). -/
structure SectionRendererGroup where
  gridRenderer : Option GridRenderer := none
  musicShelfRenderer : Option MusicShelfRenderer := none
  musicCarouselShelfRenderer : Option MusicCarouselShelfRenderer := none
  deriving DecidableEq

structure ItemSectionRenderer where
  contents : Option (List SectionRendererGroup) := none
  deriving DecidableEq

/-- Section of sectionListContinuation.contents: either wraps an
itemSectionRenderer or directly carries one of the probed renderers. -/
structure SlcSection where
  itemSectionRenderer : Option ItemSectionRenderer := none
  gridRenderer : Option GridRenderer := none
  musicShelfRenderer : Option MusicShelfRenderer := none
  musicCarouselShelfRenderer : Option MusicCarouselShelfRenderer := none
  deriving DecidableEq

structure SectionListContinuation where
  contents : Option (List SlcSection) := none
  continuations : Option (List ContinuationEntry) := none
  deriving DecidableEq

structure AppendContinuationItemsAction where
  continuationItems : Option (List ShelfContentItem) := none
  deriving DecidableEq

structure ResponseReceivedAction where
  appendContinuationItemsAction : Option AppendContinuationItemsAction := none
  deriving DecidableEq

structure ContinuationContents where
  gridContinuation : Option GridContinuation := none
  musicPlaylistShelfContinuation : Option MusicPlaylistShelfContinuation := none
  sectionListContinuation : Option SectionListContinuation := none
  deriving DecidableEq

/-- Playlist and album page header.  thumbnail stands for
thumbnail.musicThumbnailRenderer. -/
structure MusicResponsiveHeaderRenderer where
  title : Option TextRuns := none
  straplineTextOne : Option TextRuns := none
  secondSubtitle : Option TextRuns := none
  thumbnail : Option MusicThumbnailRenderer := none
  deriving DecidableEq

/-- Editable playlist header wrapper; headerMusicResponsiveHeaderRenderer
stands for header.musicResponsiveHeaderRenderer. -/
structure MusicEditablePlaylistDetailHeaderRenderer where
  headerMusicResponsiveHeaderRenderer : Option MusicResponsiveHeaderRenderer := none
  deriving DecidableEq

/-- Entry of the first-tab section list of a two-column browse result. -/
structure TabSectionEntry where
  musicResponsiveHeaderRenderer : Option MusicResponsiveHeaderRenderer := none
  musicEditablePlaylistDetailHeaderRenderer : Option MusicEditablePlaylistDetailHeaderRenderer := none
  deriving DecidableEq

structure SecondarySectionEntry where
  musicPlaylistShelfRenderer : Option MusicPlaylistShelfRenderer := none
  deriving DecidableEq

/-- secondaryContents of a two-column browse result;
sectionListContents and sectionListContinuations stand for
sectionListRenderer.contents and sectionListRenderer.continuations. -/
structure SecondaryContents where
  sectionListContents : Option (List SecondarySectionEntry) := none
  sectionListContinuations : Option (List ContinuationEntry) := none
  deriving DecidableEq

/-- Two-column browse result; tabsFirstSectionContents stands for
tabs[0].tabRenderer.content.sectionListRenderer.contents. -/
structure TwoColumnBrowseResultsRenderer where
  tabsFirstSectionContents : Option (List TabSectionEntry) := none
  secondaryContents : Option SecondaryContents := none
  deriving DecidableEq

structure MicroformatDataRenderer where
  title : Option String := none
  urlCanonical : Option String := none
  deriving DecidableEq

/-- Top-level browse response envelope.  contentsTwoColumn stands for
contents.twoColumnBrowseResultsRenderer, microformat for
microformat.microformatDataRenderer, responseContextVisitorData for
responseContext.visitorData. -/
structure BrowseResponse where
  contentsTwoColumn : Option TwoColumnBrowseResultsRenderer := none
  microformat : Option MicroformatDataRenderer := none
  continuationContents : Option ContinuationContents := none
  onResponseReceivedActions : Option (List ResponseReceivedAction) := none
  responseContextVisitorData : Option String := none
  deriving DecidableEq

/-! Normalized domain items, the tagged union the item mappers produce. -/

structure ArtistRef where
  name : Option String := none
  id : Option String := none
  deriving DecidableEq

structure SongItem where
  id : Option String := none
  title : Option String := none
  artists : List ArtistRef := []
  thumbnail : Option String := none
  explicit : Bool := false
  musicVideoType : Option String := none
  album : Option ArtistRef := none
  duration : Option String := none
  deriving DecidableEq

structure AlbumItem where
  browseId : Option String := none
  playlistId : Option String := none
  title : Option String := none
  artists : List ArtistRef := []
  year : Option Int := none
  thumbnail : Option String := none
  explicit : Bool := false
  deriving DecidableEq

structure ArtistItem where
  id : Option String := none
  title : Option String := none
  thumbnail : Option String := none
  subscribers : Option String := none
  deriving DecidableEq

structure PlaylistItem where
  id : Option String := none
  browseId : Option String := none
  title : Option String := none
  author : Option ArtistRef := none
  thumbnail : Option String := none
  deriving DecidableEq

structure UnknownItem where
  browseId : Option String := none
  videoId : Option String := none
  title : Option String := none
  thumbnail : Option String := none
  subtitle : Option String := none
  deriving DecidableEq

inductive Item where
  | song : SongItem → Item
  | album : AlbumItem → Item
  | artist : ArtistItem → Item
  | playlist : PlaylistItem → Item
  | unknown : UnknownItem → Item
  deriving DecidableEq

/-- The type field of a normalized item. -/
inductive ItemTag where
  | song
  | album
  | artist
  | playlist
  | unknown
  deriving DecidableEq

/-- Variant tag of an item, the value of its type field in the source. -/
def Item.tag : Item → ItemTag
  | .song _ => .song
  | .album _ => .album
  | .artist _ => .artist
  | .playlist _ => .playlist
  | .unknown _ => .unknown

/-- Duration field of a song item; none for the other variants. -/
def Item.durationOf : Item → Option String
  | .song s => s.duration
  | _ => none

/-! Utility helpers of the parsers module. -/

/-- Source helper getThumbnailUrl: last entry of the thumbnails array. -/
def getThumbnailUrl (t : Option MusicThumbnailRenderer) : Option String :=
  match t with
  | none => none
  | some r =>
    match r.thumbnails with
    | none => none
    | some [] => none
    | some l => jsOrNull (l.getLast?.bind ThumbnailEntry.url)

/-- Source helper getContinuation: token of the first continuations entry. -/
def getContinuation (c : Option (List ContinuationEntry)) : Option String :=
  match c with
  | none => none
  | some [] => none
  | some (e :: _) =>
    jsOrNull (e.nextContinuationData.bind NextContinuationData.continuation)

/-- Source helper getItems: drop entries carrying a continuationItemRenderer. -/
def getItems (c : Option (List ShelfContentItem)) : List ShelfContentItem :=
  match c with
  | none => []
  | some l => l.filter (fun x => x.continuationItemRenderer.isNone)

/-- Source helper getItemsContinuation: token of the entry carrying a
continuationItemRenderer. -/
def getItemsContinuation (c : Option (List ShelfContentItem)) : Option String :=
  match c with
  | none => none
  | some l =>
    match l.find? (fun x => x.continuationItemRenderer.isSome) with
    | none => none
    | some x => jsOrNull (x.continuationItemRenderer.bind ContinuationItemRenderer.token)

/-! Accessors shared by the item mappers; each mirrors one optional-chain
expression of the source. -/

/-- Path navigationEndpoint.browseEndpoint.browseId of a run. -/
def runBrowseId (r : Run) : Option String :=
  (r.navigationEndpoint.bind NavigationEndpoint.browseEndpoint).bind BrowseEndpoint.browseId

/-- First run of a text object: t.runs[0]. -/
def textRunsFirst (t : Option TextRuns) : Option Run :=
  (t.bind TextRuns.runs).bind List.head?

/-- Last run of a text object: t.runs[t.runs.length - 1]. -/
def textRunsLast (t : Option TextRuns) : Option Run :=
  (t.bind TextRuns.runs).bind List.getLast?

/-- Column i of renderer.flexColumns || [], then its text. -/
def mrlirFlexCol (r : MusicResponsiveListItemRenderer) (i : Nat) : Option TextRuns :=
  ((r.flexColumns.getD []).get? i).bind FlexColumn.text

/-- Title: first-column first-run text. -/
def mrlirTitle (r : MusicResponsiveListItemRenderer) : Option String :=
  (textRunsFirst (mrlirFlexCol r 0)).bind Run.text

/-- Video id: playlistItemData.videoId, else the overlay play endpoint
watchEndpoint.videoId (JavaScript or-chain). -/
def mrlirVideoId (r : MusicResponsiveListItemRenderer) : Option String :=
  jsOr (r.playlistItemData.bind PlaylistItemData.videoId)
    (((r.overlay.bind Overlay.playNavigationEndpoint).bind
        NavigationEndpoint.watchEndpoint).bind WatchEndpoint.videoId)

/-- Path navigationEndpoint.browseEndpoint.browseId of the renderer. -/
def mrlirBrowseId (r : MusicResponsiveListItemRenderer) : Option String :=
  (r.navigationEndpoint.bind NavigationEndpoint.browseEndpoint).bind BrowseEndpoint.browseId

/-- Page type of the renderer browse endpoint. -/
def mrlirPageType (r : MusicResponsiveListItemRenderer) : Option String :=
  (r.navigationEndpoint.bind NavigationEndpoint.browseEndpoint).bind BrowseEndpoint.pageType

/-- Music video type of the overlay play endpoint. -/
def mrlirMusicVideoType (r : MusicResponsiveListItemRenderer) : Option String :=
  ((r.overlay.bind Overlay.playNavigationEndpoint).bind
      NavigationEndpoint.watchEndpoint).bind WatchEndpoint.musicVideoType

/-- Thumbnail: getThumbnailUrl of the renderer thumbnail, else the direct
last-entry url (JavaScript or-chain of the source). -/
def mrlirThumbnail (r : MusicResponsiveListItemRenderer) : Option String :=
  jsOr (getThumbnailUrl r.thumbnail)
    (((r.thumbnail.bind MusicThumbnailRenderer.thumbnails).bind List.getLast?).bind
      ThumbnailEntry.url)

/-- Playlist id of the overlay play endpoint watchPlaylistEndpoint. -/
def mrlirOverlayPlaylistId (r : MusicResponsiveListItemRenderer) : Option String :=
  ((r.overlay.bind Overlay.playNavigationEndpoint).bind
      NavigationEndpoint.watchPlaylistEndpoint).bind WatchPlaylistEndpoint.playlistId

/-- Fixed duration column text: fixedColumns[0] text runs[0] text. -/
def mrlirFixedText (r : MusicResponsiveListItemRenderer) : Option String :=
  (textRunsFirst ((r.fixedColumns.getD []).head?.bind FixedColumn.text)).bind Run.text

/-- Badge scan for the explicit-content icon type. -/
def hasExplicitBadge (l : Option (List Badge)) : Bool :=
  match l with
  | none => false
  | some bs => bs.any (fun b => b.iconType == some "MUSIC_EXPLICIT_BADGE")

/-! Item mappers. -/

/-- Translation of parseMusicResponsiveListItemRenderer. -/
def parseMusicResponsiveListItemRenderer :
    Option MusicResponsiveListItemRenderer → Option Item
  | none => none
  | some renderer =>
    let secondCol := mrlirFlexCol renderer 1
    let title := mrlirTitle renderer
    let videoId := mrlirVideoId renderer
    let browseId := mrlirBrowseId renderer
    let thumbnail := mrlirThumbnail renderer
    let explicit := hasExplicitBadge renderer.badges
    let pageType := mrlirPageType renderer
    let musicVideoType := mrlirMusicVideoType renderer
    if pageType == some "MUSIC_PAGE_TYPE_ARTIST" || oStartsWith browseId "UC" then
      some (Item.artist
        { id := browseId
          title := title
          thumbnail := thumbnail
          subscribers := (textRunsFirst secondCol).bind Run.text })
    else if pageType == some "MUSIC_PAGE_TYPE_ALBUM" then
      some (Item.album
        { browseId := browseId
          playlistId := mrlirOverlayPlaylistId renderer
          title := title
          artists :=
            ((secondCol.bind TextRuns.runs).getD []).filter
                (fun r => r.navigationEndpoint.isSome)
              |>.map (fun r => { name := r.text, id := runBrowseId r })
          year := intOrNull (parseIntJS ((textRunsLast secondCol).bind Run.text))
          thumbnail := thumbnail
          explicit := explicit })
    else if pageType == some "MUSIC_PAGE_TYPE_PLAYLIST" then
      some (Item.playlist
        { id := browseId.map stripVL
          browseId := browseId
          title := title
          author :=
            match textRunsFirst secondCol with
            | some r => some { name := r.text, id := runBrowseId r }
            | none => none
          thumbnail := thumbnail })
    else if sTruthy videoId || sTruthy title then
      let runs := (secondCol.bind TextRuns.runs).getD []
      let ucArtists :=
        (runs.filter (fun r => oStartsWith (runBrowseId r) "UC")).map
          (fun r => ({ name := r.text, id := runBrowseId r } : ArtistRef))
      let artists :=
        if ucArtists.isEmpty && !runs.isEmpty then
          let filtered := runs.filter
            (fun r => sTruthy r.text && r.text != some " • " && r.text != some " & ")
          if !filtered.isEmpty then
            (filtered.take 1).map
              (fun r => ({ name := r.text, id := jsOrNull (runBrowseId r) } : ArtistRef))
          else ucArtists
        else ucArtists
      some (Item.song
        { id := videoId
          title := title
          artists := artists
          thumbnail := thumbnail
          explicit := explicit
          musicVideoType := musicVideoType
          album :=
            match runs.find? (fun r => oStartsWith (runBrowseId r) "MPREb") with
            | some r => some { name := r.text, id := runBrowseId r }
            | none => none
          duration :=
            if sTruthy (mrlirFixedText renderer) then mrlirFixedText renderer
            else
              match (textRunsLast secondCol).bind Run.text with
              | some t => if matchesClockPattern t then some t else none
              | none => none })
    else none

/-- Path navigationEndpoint.browseEndpoint.browseId of a two-row renderer. -/
def twoRowBrowseId (r : MusicTwoRowItemRenderer) : Option String :=
  (r.navigationEndpoint.bind NavigationEndpoint.browseEndpoint).bind BrowseEndpoint.browseId

/-- Path navigationEndpoint.watchEndpoint.videoId of a two-row renderer. -/
def twoRowVideoId (r : MusicTwoRowItemRenderer) : Option String :=
  (r.navigationEndpoint.bind NavigationEndpoint.watchEndpoint).bind WatchEndpoint.videoId

/-- Translation of parseMusicTwoRowItemRenderer. -/
def parseMusicTwoRowItemRenderer : Option MusicTwoRowItemRenderer → Option Item
  | none => none
  | some renderer =>
    let title := (textRunsFirst renderer.title).bind Run.text
    let subtitle := renderer.subtitle.bind TextRuns.runs
    let thumbnail := getThumbnailUrl renderer.thumbnailRenderer
    let browseId := twoRowBrowseId renderer
    let videoId := twoRowVideoId renderer
    let explicit := hasExplicitBadge renderer.subtitleBadges
    let musicVideoType :=
      (renderer.navigationEndpoint.bind NavigationEndpoint.watchEndpoint).bind
        WatchEndpoint.musicVideoType
    if oStartsWith browseId "MPREb" then
      some (Item.album
        { browseId := browseId
          playlistId :=
            ((renderer.thumbnailOverlay.bind Overlay.playNavigationEndpoint).bind
                NavigationEndpoint.watchPlaylistEndpoint).bind WatchPlaylistEndpoint.playlistId
          title := title
          artists :=
            ((oddElements subtitle).drop 1).map
                (fun r => ({ name := r.text, id := runBrowseId r } : ArtistRef))
              |>.filter (fun a => sTruthy a.id)
          year := intOrNull (parseIntJS ((subtitle.bind List.getLast?).bind Run.text))
          thumbnail := thumbnail
          explicit := explicit })
    else if sTruthy videoId then
      some (Item.song
        { id := videoId
          title := title
          artists :=
            ((subtitle.getD []).filter (fun r => sTruthy (runBrowseId r))).map
              (fun r => ({ name := r.text, id := runBrowseId r } : ArtistRef))
          thumbnail := thumbnail
          explicit := explicit
          musicVideoType := musicVideoType
          album := none
          duration := none })
    else if oStartsWith browseId "UC" then
      some (Item.artist
        { id := browseId
          title := title
          thumbnail := thumbnail
          subscribers := ((subtitle.bind List.head?).bind Run.text) })
    else if oStartsWith browseId "VL" || oStartsWith browseId "RDCLAK" then
      some (Item.playlist
        { id := browseId.map stripVL
          browseId := browseId
          title := title
          author :=
            match subtitle.bind List.head? with
            | some r => some { name := r.text, id := runBrowseId r }
            | none => none
          thumbnail := thumbnail })
    else
      some (Item.unknown
        { browseId := browseId
          videoId := videoId
          title := title
          thumbnail := thumbnail
          subtitle := subtitle.map (fun rs => String.join (rs.map (fun r => r.text.getD ""))) })

/-- Album context argument of parseAlbumSong (title, browseId, artists and
thumbnail of the already-parsed album). -/
structure AlbumCtx where
  title : Option String := none
  browseId : Option String := none
  thumbnail : Option String := none
  artists : List ArtistRef := []
  deriving DecidableEq

/-- Translation of parseAlbumSong.  The source result has no
musicVideoType key, modelled here as none. -/
def parseAlbumSong (renderer : Option MusicResponsiveListItemRenderer)
    (album : Option AlbumCtx) : Option SongItem :=
  match renderer with
  | none => none
  | some r =>
    let secondCol := mrlirFlexCol r 1
    let title := mrlirTitle r
    let videoId := mrlirVideoId r
    if !sTruthy title && !sTruthy videoId then none
    else
      some
        { id := videoId
          title := title
          artists :=
            match secondCol.bind TextRuns.runs with
            | some runs =>
              (runs.filter (fun rr => sTruthy (runBrowseId rr))).map
                (fun rr => { name := rr.text, id := runBrowseId rr })
            | none => (album.map AlbumCtx.artists).getD []
          thumbnail := jsOr (album.bind AlbumCtx.thumbnail) (getThumbnailUrl r.thumbnail)
          explicit := hasExplicitBadge r.badges
          musicVideoType := none
          album := album.map (fun a => { name := a.title, id := a.browseId })
          duration :=
            if sTruthy (mrlirFixedText r) then mrlirFixedText r
            else
              match (textRunsLast secondCol).bind Run.text with
              | some t => if matchesClockPattern t then some t else none
              | none => none }

/-! Album songs aggregation: parseAlbumSongs plus the self-driven
albumSongs loop of the high-level client. -/

structure AlbumSongsPage where
  songs : List SongItem := []
  continuation : Option String := none
  deriving DecidableEq

/-- Translation of parseAlbumSongs. -/
def parseAlbumSongs (response : BrowseResponse) : AlbumSongsPage :=
  let shelf := (((response.contentsTwoColumn.bind
        TwoColumnBrowseResultsRenderer.secondaryContents).bind
        SecondaryContents.sectionListContents).bind List.head?).bind
        SecondarySectionEntry.musicPlaylistShelfRenderer
  let contents := shelf.bind MusicPlaylistShelfRenderer.contents
  { songs :=
      (getItems contents).filterMap
        (fun c => parseAlbumSong c.musicResponsiveListItemRenderer none)
    continuation :=
      jsOr (getContinuation (shelf.bind MusicPlaylistShelfRenderer.continuations))
        (getItemsContinuation contents) }

/-- Items appended by a resumed album-songs page: the
onResponseReceivedActions[0].appendContinuationItemsAction.continuationItems
entries, each parsed with parseMusicResponsiveListItemRenderer and nulls
dropped. -/
def albumSongsContItems (resp : BrowseResponse) : List Item :=
  match ((resp.onResponseReceivedActions.bind List.head?).bind
      ResponseReceivedAction.appendContinuationItemsAction).bind
      AppendContinuationItemsAction.continuationItems with
  | none => []
  | some items =>
    items.filterMap (fun item =>
      parseMusicResponsiveListItemRenderer item.musicResponsiveListItemRenderer)

/-- Next token of a resumed album-songs page:
continuationContents.musicPlaylistShelfContinuation.continuations[0]
.nextContinuationData.continuation || null. -/
def albumSongsNextCont (resp : BrowseResponse) : Option String :=
  jsOrNull (((((resp.continuationContents.bind
      ContinuationContents.musicPlaylistShelfContinuation).bind
      MusicPlaylistShelfContinuation.continuations).bind List.head?).bind
      ContinuationEntry.nextContinuationData).bind NextContinuationData.continuation)

/-- The while loop of albumSongs.  fuel is the remaining request budget
(maxRequests minus requestCount), seen the seen-token set, k the index of
the next resume response in the stream.  The second component counts the
resume calls issued.  The while condition tests JavaScript truthiness of
the token, hence the isEmpty exit. -/
def albumSongsLoop (fetch : Nat → BrowseResponse) :
    Nat → Option String → List String → List Item → Nat → List Item × Nat
  | 0, _, _, songs, _ => (songs, 0)
  | _ + 1, none, _, songs, _ => (songs, 0)
  | fuel + 1, some t, seen, songs, k =>
    if t.isEmpty then (songs, 0)
    else if seen.contains t then (songs, 0)
    else
      let rest := albumSongsLoop fetch fuel (albumSongsNextCont (fetch k)) (t :: seen)
        (songs ++ albumSongsContItems (fetch k)) (k + 1)
      (rest.1, rest.2 + 1)

/-- Translation of albumSongs: parse the initial browse response, then
follow continuations with a seen-token set and a 50-call cap, reading each
resume response from the stream fetch.  Returns the aggregated items and
the number of resume calls issued. -/
def albumSongs (initial : BrowseResponse) (fetch : Nat → BrowseResponse) :
    List Item × Nat :=
  let parsed := parseAlbumSongs initial
  albumSongsLoop fetch 50 parsed.continuation [] (parsed.songs.map Item.song) 0

/-! Playlist page mapper. -/

structure PlaylistDescriptor where
  id : String
  title : Option String := none
  author : Option ArtistRef := none
  songCountText : Option String := none
  thumbnail : Option String := none
  isEditable : Bool := false
  deriving DecidableEq

structure PlaylistPageResult where
  playlist : PlaylistDescriptor
  songs : List Item := []
  songsContinuation : Option String := none
  continuation : Option String := none
  deriving DecidableEq

/-- First entry of the two-column first-tab section list. -/
def playlistBase (response : BrowseResponse) : Option TabSectionEntry :=
  (response.contentsTwoColumn.bind
      TwoColumnBrowseResultsRenderer.tabsFirstSectionContents).bind List.head?

/-- Header of a playlist page: base.musicResponsiveHeaderRenderer, else the
editable wrapper header (JavaScript or-chain). -/
def playlistHeader (response : BrowseResponse) : Option MusicResponsiveHeaderRenderer :=
  objOr ((playlistBase response).bind TabSectionEntry.musicResponsiveHeaderRenderer)
    (((playlistBase response).bind
        TabSectionEntry.musicEditablePlaylistDetailHeaderRenderer).bind
      MusicEditablePlaylistDetailHeaderRenderer.headerMusicResponsiveHeaderRenderer)

/-- Playlist shelf in secondaryContents. -/
def playlistShelf (response : BrowseResponse) : Option MusicPlaylistShelfRenderer :=
  ((((response.contentsTwoColumn.bind
        TwoColumnBrowseResultsRenderer.secondaryContents).bind
        SecondaryContents.sectionListContents).bind List.head?).bind
    SecondarySectionEntry.musicPlaylistShelfRenderer)

/-- First song renderer of the playlist shelf: contents[0]
.musicResponsiveListItemRenderer. -/
def firstShelfRenderer (response : BrowseResponse) : Option MusicResponsiveListItemRenderer :=
  (((playlistShelf response).bind MusicPlaylistShelfRenderer.contents).bind
      List.head?).bind ShelfContentItem.musicResponsiveListItemRenderer

/-- All byline runs of a fragment: flexColumns flat-mapped to their text
runs, absent pieces contributing nothing. -/
def fragAllRuns (r : MusicResponsiveListItemRenderer) : List Run :=
  (r.flexColumns.getD []).flatMap (fun col => (col.text.bind TextRuns.runs).getD [])

/-- Direct last thumbnail url of a fragment:
thumbnail.musicThumbnailRenderer.thumbnail.thumbnails last url. -/
def fragLastThumbUrl (r : MusicResponsiveListItemRenderer) : Option String :=
  ((r.thumbnail.bind MusicThumbnailRenderer.thumbnails).bind List.getLast?).bind
    ThumbnailEntry.url

/-- Translation of parsePlaylistPage. -/
def parsePlaylistPage (response : BrowseResponse) (playlistId : String) :
    Option PlaylistPageResult :=
  let editable := ((playlistBase response).bind
    TabSectionEntry.musicEditablePlaylistDetailHeaderRenderer).isSome
  let shelf := playlistShelf response
  let songs :=
    (getItems (shelf.bind MusicPlaylistShelfRenderer.contents)).filterMap
      (fun c => parseMusicResponsiveListItemRenderer c.musicResponsiveListItemRenderer)
  let songsContinuation :=
    jsOr (getContinuation (shelf.bind MusicPlaylistShelfRenderer.continuations))
      (getItemsContinuation (shelf.bind MusicPlaylistShelfRenderer.contents))
  let sectionContinuation :=
    getContinuation ((response.contentsTwoColumn.bind
        TwoColumnBrowseResultsRenderer.secondaryContents).bind
      SecondaryContents.sectionListContinuations)
  match playlistHeader response with
  | some h =>
    some
      { playlist :=
          { id := playlistId
            title := (textRunsFirst h.title).bind Run.text
            author :=
              match textRunsFirst h.straplineTextOne with
              | some r0 => some { name := r0.text, id := runBrowseId r0 }
              | none => none
            songCountText := (textRunsFirst h.secondSubtitle).bind Run.text
            thumbnail :=
              ((h.thumbnail.bind MusicThumbnailRenderer.thumbnails).bind
                  List.getLast?).bind ThumbnailEntry.url
            isEditable := editable }
        songs := songs
        songsContinuation := songsContinuation
        continuation := sectionContinuation }
  | none =>
    if !songs.isEmpty || shelf.isSome then
      let firstSong := firstShelfRenderer response
      let firstThumbnail := firstSong.bind fragLastThumbUrl
      let allRuns :=
        match firstSong with
        | none => []
        | some fs => fragAllRuns fs
      let albumRun := allRuns.find? (fun r => oStartsWith (runBrowseId r) "MPREb")
      let artistRun := allRuns.find? (fun r => oStartsWith (runBrowseId r) "UC")
      some
        { playlist :=
            { id := playlistId
              title :=
                jsOr (response.microformat.bind MicroformatDataRenderer.title)
                  (jsOr (albumRun.bind Run.text) (some playlistId))
              author :=
                match artistRun with
                | some r => some { name := r.text, id := runBrowseId r }
                | none => none
              songCountText := some (toString songs.length ++ " songs")
              thumbnail := jsOrNull firstThumbnail
              isEditable := false }
          songs := songs
          songsContinuation := songsContinuation
          continuation := sectionContinuation }
    else none

/-! Continuation orchestrator for artist items and artist albums. -/

structure ItemsPage where
  items : List Item := []
  continuation : Option String := none
  deriving DecidableEq

/-- parseSectionContent of artistItemsContinuation: folds one section
group into the accumulated items and first-found next token.  The grid and
shelf branches record a token only when none is recorded yet; the carousel
branch contributes items only. -/
def parseSectionContent (acc : List Item × Option String)
    (g : SectionRendererGroup) : List Item × Option String :=
  match g.gridRenderer, g.musicShelfRenderer, g.musicCarouselShelfRenderer with
  | some grid, _, _ =>
    let parsed :=
      match grid.items with
      | none => []
      | some l =>
        l.filterMap (fun i => parseMusicTwoRowItemRenderer i.musicTwoRowItemRenderer)
    (acc.1 ++ parsed,
      match acc.2 with
      | some c => some c
      | none => getContinuation grid.continuations)
  | none, some shelf, _ =>
    let parsed :=
      match shelf.contents with
      | none => []
      | some l =>
        (l.filter (fun c => c.continuationItemRenderer.isNone)).filterMap
          (fun c => parseMusicResponsiveListItemRenderer c.musicResponsiveListItemRenderer)
    (acc.1 ++ parsed,
      match acc.2 with
      | some c => some c
      | none => getContinuation shelf.continuations)
  | none, none, some carousel =>
    let parsed :=
      match carousel.contents with
      | none => []
      | some l =>
        l.filterMap (fun c =>
          match c.musicTwoRowItemRenderer with
          | some tr => parseMusicTwoRowItemRenderer (some tr)
          | none =>
            match c.musicResponsiveListItemRenderer with
            | some rr => parseMusicResponsiveListItemRenderer (some rr)
            | none => none)
    (acc.1 ++ parsed, acc.2)
  | none, none, none => acc

/-- View of a section-list section as a probed renderer group (the source
passes the section object itself to parseSectionContent). -/
def slcSectionGroup (s : SlcSection) : SectionRendererGroup :=
  { gridRenderer := s.gridRenderer
    musicShelfRenderer := s.musicShelfRenderer
    musicCarouselShelfRenderer := s.musicCarouselShelfRenderer }

/-- Translation of artistItemsContinuation: probes the continuation wire
shapes in source order (gridContinuation, musicPlaylistShelfContinuation,
sectionListContinuation, then the append-actions fallback). -/
def artistItemsContinuation (response : BrowseResponse) : ItemsPage :=
  match response.continuationContents.bind ContinuationContents.gridContinuation with
  | some gc =>
    let items :=
      match gc.items with
      | none => []
      | some l =>
        l.filterMap (fun i => parseMusicTwoRowItemRenderer i.musicTwoRowItemRenderer)
    { items := items
      continuation := if items.isEmpty then none else getContinuation gc.continuations }
  | none =>
    match response.continuationContents.bind
        ContinuationContents.musicPlaylistShelfContinuation with
    | some mpc =>
      let items :=
        match mpc.contents with
        | none => []
        | some l =>
          (l.filter (fun c => c.continuationItemRenderer.isNone)).filterMap
            (fun c => parseMusicResponsiveListItemRenderer c.musicResponsiveListItemRenderer)
      { items := items
        continuation := if items.isEmpty then none else getContinuation mpc.continuations }
    | none =>
      match response.continuationContents.bind
          ContinuationContents.sectionListContinuation with
      | some slc =>
        let folded :=
          (slc.contents.getD []).foldl
            (fun acc sec =>
              match sec.itemSectionRenderer with
              | some isr => (isr.contents.getD []).foldl parseSectionContent acc
              | none => parseSectionContent acc (slcSectionGroup sec))
            ([], none)
        let nextContinuation :=
          match folded.2 with
          | some c => some c
          | none => getContinuation slc.continuations
        { items := folded.1
          continuation := if folded.1.isEmpty then none else nextContinuation }
      | none =>
        let contItems :=
          ((response.onResponseReceivedActions.bind List.head?).bind
              ResponseReceivedAction.appendContinuationItemsAction).bind
            AppendContinuationItemsAction.continuationItems
        let items :=
          match contItems with
          | none => []
          | some l =>
            (l.filter (fun c => c.continuationItemRenderer.isNone)).filterMap
              (fun c => parseMusicResponsiveListItemRenderer c.musicResponsiveListItemRenderer)
        { items := items
          continuation := if items.isEmpty then none else getItemsContinuation contItems }

/-- Result of an artist-albums continuation call. -/
structure ArtistAlbumsContPage where
  albums : List Item := []
  continuation : Option String := none
  visitorData : Option String := none
  deriving DecidableEq

/-- Response processing of artistAlbumsContinuation: the outcome is the
transport result (an exception or a response).  Only
continuationContents.gridContinuation is consulted; items are parsed with
parseMusicTwoRowItemRenderer and filtered to albums; a next token is
reported only when at least one album parsed, and visitorData only when a
next token is reported. -/
def artistAlbumsContParse (outcome : Except String BrowseResponse)
    (visitorData : Option String) : Except String ArtistAlbumsContPage :=
  match outcome with
  | .error e => .error e
  | .ok response =>
    match response.continuationContents.bind ContinuationContents.gridContinuation with
    | none => .ok { albums := [], continuation := none, visitorData := none }
    | some gc =>
      let albums :=
        match gc.items with
        | none => []
        | some l =>
          (l.filterMap (fun i => parseMusicTwoRowItemRenderer i.musicTwoRowItemRenderer)).filter
            (fun i => decide (i.tag = ItemTag.album))
      let nextToken :=
        if albums.isEmpty then none else getContinuation gc.continuations
      let nextVisitorData :=
        jsOr response.responseContextVisitorData (jsOrNull visitorData)
      .ok
        { albums := albums
          continuation := nextToken
          visitorData := if nextToken.isSome then nextVisitorData else none }

/-- Mutable session fields of the shared InnerTube client that
artistAlbumsContinuation touches or must leave intact. -/
structure InnerTubeState where
  visitorData : Option String := none
  cookie : Option String := none
  deriving DecidableEq

/-- Translation of artistAlbumsContinuation as a state transformer on the
client: the supplied visitorData, when truthy, is installed before the
browse call (fetch receives the installed state), and the finally block
restores the original value whatever the outcome. -/
def artistAlbumsContinuation (st : InnerTubeState) (continuation : String)
    (visitorData : Option String)
    (fetch : InnerTubeState → String → Except String BrowseResponse) :
    Except String ArtistAlbumsContPage × InnerTubeState :=
  let originalVisitorData := st.visitorData
  let st1 := if sTruthy visitorData then { st with visitorData := visitorData } else st
  (artistAlbumsContParse (fetch st1 continuation) visitorData,
    { st1 with visitorData := originalVisitorData })

/-! Queue size guard of the high-level client. -/

def MAX_GET_QUEUE_SIZE : Nat := 1000

/-- Arguments of the getQueue transport call. -/
structure GetQueueRequest where
  videoIds : Option (List String) := none
  playlistId : Option String := none
  deriving DecidableEq

/-- Translation of queue: an oversized non-null videoIds list raises
before any transport call; otherwise the getQueue transport request is
issued with the given arguments. -/
def queue (videoIds : Option (List String)) (playlistId : Option String) :
    Except String GetQueueRequest :=
  match videoIds with
  | some l =>
    if l.length > MAX_GET_QUEUE_SIZE then
      .error ("Max queue size is " ++ toString MAX_GET_QUEUE_SIZE)
    else .ok { videoIds := some l, playlistId := playlistId }
  | none => .ok { videoIds := none, playlistId := playlistId }

/-! Spec-side definitions: classification and duration rules written from
the design spec's words, to be compared with the source translations. -/

/-- Classification of a renderer fragment following the decision order
claimed by the spec, over the four identifying signals: a reserved album
marker first (album page type or the MPREb browse-id marker), then the
channel/artist marker (artist page type or the UC marker), then the
playlist markers (playlist page type or the VL and RDCLAK markers), then
track-id or title presence yields Song, else Unknown. -/
def classifyPerSpecOrder (pageType browseId videoId title : Option String) : ItemTag :=
  if pageType == some "MUSIC_PAGE_TYPE_ALBUM" || oStartsWith browseId "MPREb" then .album
  else if pageType == some "MUSIC_PAGE_TYPE_ARTIST" || oStartsWith browseId "UC" then .artist
  else if pageType == some "MUSIC_PAGE_TYPE_PLAYLIST" || oStartsWith browseId "VL"
      || oStartsWith browseId "RDCLAK" then .playlist
  else if sTruthy videoId || sTruthy title then .song
  else .unknown

/-- Amended decision order of parseMusicTwoRowItemRenderer: album
browse-id marker first, then a truthy watch-endpoint track id yields Song,
then the UC channel marker, then the VL and RDCLAK playlist markers, else
Unknown. -/
def twoRowClassifySpec (r : MusicTwoRowItemRenderer) : ItemTag :=
  if oStartsWith (twoRowBrowseId r) "MPREb" then .album
  else if sTruthy (twoRowVideoId r) then .song
  else if oStartsWith (twoRowBrowseId r) "UC" then .artist
  else if oStartsWith (twoRowBrowseId r) "VL" || oStartsWith (twoRowBrowseId r) "RDCLAK" then
    .playlist
  else .unknown

/-- Amended decision order of parseMusicResponsiveListItemRenderer: the
artist marker first (artist page type or UC browse-id marker), then the
album page type, then the playlist page type, then a truthy track id or
title yields Song, else null. -/
def mrlirClassifySpec (r : MusicResponsiveListItemRenderer) : Option ItemTag :=
  if mrlirPageType r == some "MUSIC_PAGE_TYPE_ARTIST" || oStartsWith (mrlirBrowseId r) "UC" then
    some .artist
  else if mrlirPageType r == some "MUSIC_PAGE_TYPE_ALBUM" then some .album
  else if mrlirPageType r == some "MUSIC_PAGE_TYPE_PLAYLIST" then some .playlist
  else if sTruthy (mrlirVideoId r) || sTruthy (mrlirTitle r) then some .song
  else none

/-- Duration selection rule in the spec's words: prefer the fixed-width
duration column when it is present (truthy); otherwise accept the trailing
text fragment of the secondary line only when it matches the strict clock
pattern; null in every other case. -/
def durationSelectionSpec (r : MusicResponsiveListItemRenderer) : Option String :=
  if sTruthy (mrlirFixedText r) then mrlirFixedText r
  else
    match (textRunsLast (mrlirFlexCol r 1)).bind Run.text with
    | some t => if matchesClockPattern t then some t else none
    | none => none

/-! Theorems for the claims, with their concrete inputs. -/

/-- Fragment carrying both the album page type and a UC browse id. -/
def fragC2 : MusicResponsiveListItemRenderer :=
  { navigationEndpoint := some
      { browseEndpoint := some
          { browseId := some "UCc2sample"
            pageType := some "MUSIC_PAGE_TYPE_ALBUM" } } }

/-- Claim C2 counterexample: on a fragment carrying both the reserved
album marker (album page type) and the artist marker (UC browse id), the
spec's claimed order classifies Album, but the source classifies Artist,
because parseMusicResponsiveListItemRenderer checks the artist marker
before the album marker. -/
theorem classifier_claimed_order_counterexample :
    classifyPerSpecOrder (mrlirPageType fragC2) (mrlirBrowseId fragC2)
        (mrlirVideoId fragC2) (mrlirTitle fragC2) = ItemTag.album
    ∧ (parseMusicResponsiveListItemRenderer (some fragC2)).map Item.tag
        = some ItemTag.artist :=
  ⟨rfl, rfl⟩

/-- Claim C2 (amended): the classification order of the two item mappers
is fixed and first-match-wins, but it is the order of the source, not the
claimed one: parseMusicTwoRowItemRenderer checks album marker, then track
id, then artist marker, then playlist markers, else Unknown, and
parseMusicResponsiveListItemRenderer checks artist marker, then album page
type, then playlist page type, then track-id or title presence. -/
theorem classifier_order_characterization :
    (∀ r : MusicTwoRowItemRenderer,
      (parseMusicTwoRowItemRenderer (some r)).map Item.tag = some (twoRowClassifySpec r))
    ∧ (∀ r : MusicResponsiveListItemRenderer,
      (parseMusicResponsiveListItemRenderer (some r)).map Item.tag = mrlirClassifySpec r) := by
  constructor
  · intro r
    simp only [parseMusicTwoRowItemRenderer, twoRowClassifySpec]
    split_ifs <;> rfl
  · intro r
    simp only [parseMusicResponsiveListItemRenderer, mrlirClassifySpec]
    split_ifs <;> rfl

/-- Two-row fragment with a UC browse id and a watch-endpoint track id. -/
def fragC3 : MusicTwoRowItemRenderer :=
  { navigationEndpoint := some
      { browseEndpoint := some { browseId := some "UCc3sample" }
        watchEndpoint := some { videoId := some "vidc3" } } }

/-- Claim C3 counterexample: a musicTwoRowItemRenderer fragment whose
browse id starts with the UC channel marker and which also carries a track
id is classified Song, not Artist, because the track-id check of
parseMusicTwoRowItemRenderer precedes the UC check. -/
theorem two_row_artist_prefix_counterexample :
    oStartsWith (twoRowBrowseId fragC3) "UC" = true
    ∧ sTruthy (twoRowVideoId fragC3) = true
    ∧ (parseMusicTwoRowItemRenderer (some fragC3)).map Item.tag = some ItemTag.song :=
  ⟨rfl, rfl, rfl⟩

/-- Claim C3 (amended): in parseMusicResponsiveListItemRenderer, a browse
id starting with the UC channel marker classifies the fragment as Artist
even when a track id is also present, because that check comes first. -/
theorem mrlir_artist_prefix_precedence (r : MusicResponsiveListItemRenderer)
    (h : oStartsWith (mrlirBrowseId r) "UC" = true) :
    (parseMusicResponsiveListItemRenderer (some r)).map Item.tag = some ItemTag.artist := by
  simp [parseMusicResponsiveListItemRenderer, h, Item.tag]

/-- Fragment with a UC browse id and a track id for the C3 witness. -/
def fragC3w : MusicResponsiveListItemRenderer :=
  { navigationEndpoint := some { browseEndpoint := some { browseId := some "UCc3witness" } }
    playlistItemData := some { videoId := some "vidc3w" } }

/-- Witness for the amended C3 theorem at a concrete fragment that also
carries a track id. -/
theorem mrlir_artist_prefix_precedence_witness :
    oStartsWith (mrlirBrowseId fragC3w) "UC" = true
    ∧ sTruthy (mrlirVideoId fragC3w) = true
    ∧ (parseMusicResponsiveListItemRenderer (some fragC3w)).map Item.tag
        = some ItemTag.artist :=
  ⟨rfl, rfl, mrlir_artist_prefix_precedence fragC3w rfl⟩

/-- Fragment whose only identifying field is a browse id with an
unreserved marker. -/
def fragC5 : MusicResponsiveListItemRenderer :=
  { navigationEndpoint := some { browseEndpoint := some { browseId := some "FEmusic_liked" } } }

/-- Claim C5 counterexample: parseMusicResponsiveListItemRenderer returns
null on a fragment whose browse id is present (an unreserved FE marker)
but whose track id and title are absent, so null is not returned exactly
when id, browse id and title are all absent. -/
theorem mrlir_null_with_browseId_counterexample :
    parseMusicResponsiveListItemRenderer (some fragC5) = none
    ∧ mrlirBrowseId fragC5 = some "FEmusic_liked" :=
  ⟨rfl, rfl⟩

/-- Claim C5 (amended): the mappers are total and never throw;
parseMusicResponsiveListItemRenderer returns null exactly when no
artist, album or playlist marker applies and both the track id and the
title are absent or empty (a browse id with an unreserved marker may still
be present); parseMusicTwoRowItemRenderer never returns null on a present
fragment (Unknown fallback); and the caller-side filtering of nulls keeps
the page result a possibly shorter list. -/
theorem mapper_null_characterization :
    (∀ r : MusicResponsiveListItemRenderer,
      (parseMusicResponsiveListItemRenderer (some r)).isNone =
        (!(mrlirPageType r == some "MUSIC_PAGE_TYPE_ARTIST"
            || oStartsWith (mrlirBrowseId r) "UC")
          && !(mrlirPageType r == some "MUSIC_PAGE_TYPE_ALBUM")
          && !(mrlirPageType r == some "MUSIC_PAGE_TYPE_PLAYLIST")
          && !(sTruthy (mrlirVideoId r) || sTruthy (mrlirTitle r))))
    ∧ (∀ r : MusicTwoRowItemRenderer,
      (parseMusicTwoRowItemRenderer (some r)).isSome = true)
    ∧ (∀ l : List ShelfContentItem,
      ((l.map (fun c =>
          parseMusicResponsiveListItemRenderer c.musicResponsiveListItemRenderer)).filterMap
        id).length ≤ l.length) := by
  refine ⟨?_, ?_, ?_⟩
  · intro r
    cases hc1 : (mrlirPageType r == some "MUSIC_PAGE_TYPE_ARTIST"
        || oStartsWith (mrlirBrowseId r) "UC") <;>
      cases hc2 : (mrlirPageType r == some "MUSIC_PAGE_TYPE_ALBUM") <;>
        cases hc3 : (mrlirPageType r == some "MUSIC_PAGE_TYPE_PLAYLIST") <;>
          cases hc4 : (sTruthy (mrlirVideoId r) || sTruthy (mrlirTitle r)) <;>
            simp [parseMusicResponsiveListItemRenderer, hc1, hc2, hc3, hc4]
  · intro r
    simp only [parseMusicTwoRowItemRenderer]
    split_ifs <;> rfl
  · intro l
    calc ((l.map (fun c =>
            parseMusicResponsiveListItemRenderer c.musicResponsiveListItemRenderer)).filterMap
          id).length
        ≤ (l.map (fun c =>
            parseMusicResponsiveListItemRenderer c.musicResponsiveListItemRenderer)).length :=
          List.length_filterMap_le _ _
      _ = l.length := List.length_map _ _

/-- Continuation response with the given wire shapes installed. -/
def mkContResp (g : Option GridContinuation) (m : Option MusicPlaylistShelfContinuation)
    (s : Option SectionListContinuation) (a : Option (List ResponseReceivedAction)) :
    BrowseResponse :=
  { continuationContents := some
      { gridContinuation := g
        musicPlaylistShelfContinuation := m
        sectionListContinuation := s }
    onResponseReceivedActions := a }

/-- Grid continuation whose single entry parses to an album. -/
def gcC6 : GridContinuation :=
  { items := some
      [ { musicTwoRowItemRenderer := some
            { navigationEndpoint := some
                { browseEndpoint := some { browseId := some "MPREbC6sample" } } } } ] }

/-- Shelf continuation whose single entry parses to a song. -/
def mpcC6 : MusicPlaylistShelfContinuation :=
  { contents := some
      [ { musicResponsiveListItemRenderer := some
            { playlistItemData := some { videoId := some "vidC6" } } } ] }

/-- Claim C6 counterexample: a resume response carrying both a
grid-continuation (parsing to an album) and a shelf-continuation (parsing
to a song) yields the grid result, so the shelf shape is not tried first
as claimed; the shelf-only response shows the shelf shape would have
yielded the song. -/
theorem continuation_shape_order_counterexample :
    ((mkContResp (some gcC6) (some mpcC6) none none).continuationContents.bind
        ContinuationContents.musicPlaylistShelfContinuation).isSome = true
    ∧ (artistItemsContinuation (mkContResp (some gcC6) (some mpcC6) none none)).items.map
        Item.tag = [ItemTag.album]
    ∧ (artistItemsContinuation (mkContResp none (some mpcC6) none none)).items.map
        Item.tag = [ItemTag.song] :=
  ⟨rfl, rfl, rfl⟩

/-- Claim C6 (amended): artistItemsContinuation tries the continuation
wire shapes in the fixed order grid-continuation, shelf-continuation,
section-list-continuation (with the item-section unwrap), then the
append-actions fallback: whenever an earlier shape is present, the result
is the same whatever the later shapes and append actions hold. -/
theorem continuation_shape_precedence :
    (∀ (g : GridContinuation) (m : Option MusicPlaylistShelfContinuation)
        (s : Option SectionListContinuation) (a : Option (List ResponseReceivedAction)),
      artistItemsContinuation (mkContResp (some g) m s a)
        = artistItemsContinuation (mkContResp (some g) none none none))
    ∧ (∀ (m : MusicPlaylistShelfContinuation) (s : Option SectionListContinuation)
        (a : Option (List ResponseReceivedAction)),
      artistItemsContinuation (mkContResp none (some m) s a)
        = artistItemsContinuation (mkContResp none (some m) none none))
    ∧ (∀ (s : SectionListContinuation) (a : Option (List ResponseReceivedAction)),
      artistItemsContinuation (mkContResp none none (some s) a)
        = artistItemsContinuation (mkContResp none none (some s) none)) :=
  ⟨fun _ _ _ _ => rfl, fun _ _ _ => rfl, fun _ _ => rfl⟩

/-- Initial album browse response whose shelf yields no songs but a
continuation token TOK1. -/
def initC1 : BrowseResponse :=
  { contentsTwoColumn := some
      { secondaryContents := some
          { sectionListContents := some
              [ { musicPlaylistShelfRenderer := some
                    { continuations := some
                        [ { nextContinuationData := some
                              { continuation := some "TOK1" } } ] } } ] } } }

/-- Resume response stream: the first resumed page yields zero items but a
fresh token TOK2, the second yields nothing and no token. -/
def fetchC1 : Nat → BrowseResponse := fun k =>
  if k = 0 then
    { continuationContents := some
        { musicPlaylistShelfContinuation := some
            { continuations := some
                [ { nextContinuationData := some { continuation := some "TOK2" } } ] } } }
  else {}

/-- Claim C1 counterexample: the first resumed album-songs page yields
zero items yet carries the non-null token TOK2, and albumSongs still
issues a second resume call (two resume calls in total), so a zero-yield
resumed page does not exhaust the sequence. -/
theorem albumSongs_zero_yield_counterexample :
    albumSongsContItems (fetchC1 0) = []
    ∧ albumSongsNextCont (fetchC1 0) = some "TOK2"
    ∧ (albumSongs initC1 fetchC1).2 = 2 :=
  ⟨rfl, rfl, rfl⟩

/-- Claim C1 (amended): the zero-yield guard belongs to the artist-albums
continuation: when a resume outcome parses to zero album items, the
reported continuation is null (and so is the visitorData), even when the
response carries a token, so no further page is requested for that
sequence; albumSongs itself guards against echoing tokens only through its
seen-token set and call cap. -/
theorem artistAlbumsCont_zero_yield_null
    (outcome : Except String BrowseResponse) (vd : Option String)
    (res : ArtistAlbumsContPage)
    (h : artistAlbumsContParse outcome vd = .ok res)
    (hzero : res.albums = []) :
    res.continuation = none ∧ res.visitorData = none := by
  cases outcome with
  | error e => simp [artistAlbumsContParse] at h
  | ok response =>
    simp only [artistAlbumsContParse] at h
    cases hgc : response.continuationContents.bind ContinuationContents.gridContinuation with
    | none =>
      rw [hgc] at h
      cases h
      exact ⟨rfl, rfl⟩
    | some gc =>
      rw [hgc] at h
      cases h
      simp_all

/-- Zero-yield grid response carrying a token, for the C1 witness. -/
def respC1w : BrowseResponse :=
  { continuationContents := some
      { gridContinuation := some
          { items := some []
            continuations := some
              [ { nextContinuationData := some { continuation := some "TOKC1W" } } ] } } }

/-- Parsed result of the C1 witness response. -/
def resC1w : ArtistAlbumsContPage := { albums := [], continuation := none, visitorData := none }

/-- Witness for the amended C1 theorem: a zero-yield grid continuation
response carrying a token reports continuation null and visitorData null. -/
theorem artistAlbumsCont_zero_yield_null_witness :
    resC1w.continuation = none ∧ resC1w.visitorData = none :=
  artistAlbumsCont_zero_yield_null (Except.ok respC1w) none resC1w rfl rfl

/-- Unfolding of albumSongsLoop at a present token. -/
theorem albumSongsLoop_succ (fetch : Nat → BrowseResponse) (fuel : Nat) (t : String)
    (seen : List String) (songs : List Item) (k : Nat) :
    albumSongsLoop fetch (fuel + 1) (some t) seen songs k =
      if t.isEmpty then (songs, 0)
      else if seen.contains t then (songs, 0)
      else
        ((albumSongsLoop fetch fuel (albumSongsNextCont (fetch k)) (t :: seen)
            (songs ++ albumSongsContItems (fetch k)) (k + 1)).1,
          (albumSongsLoop fetch fuel (albumSongsNextCont (fetch k)) (t :: seen)
            (songs ++ albumSongsContItems (fetch k)) (k + 1)).2 + 1) :=
  rfl

/-- The loop issues at most fuel resume calls. -/
theorem albumSongsLoop_le (fetch : Nat → BrowseResponse) :
    ∀ (fuel : Nat) (cont : Option String) (seen : List String) (songs : List Item) (k : Nat),
      (albumSongsLoop fetch fuel cont seen songs k).2 ≤ fuel := by
  intro fuel
  induction fuel with
  | zero =>
    intro cont seen songs k
    simp [albumSongsLoop]
  | succ n ih =>
    intro cont seen songs k
    cases cont with
    | none => simp [albumSongsLoop]
    | some t =>
      rw [albumSongsLoop_succ]
      split_ifs
      · simp
      · simp
      · have := ih (albumSongsNextCont (fetch k)) (t :: seen)
          (songs ++ albumSongsContItems (fetch k)) (k + 1)
        simp only []
        omega

/-- Claim C4: albumSongs issues at most 50 resume calls whatever the
response stream, and when the initial page hands out a token that every
resumed page echoes back, the loop stops after a single resume call
because the token is already in the seen set. -/
theorem albumSongs_call_cap_and_echo_termination
    (init : BrowseResponse) (fetch : Nat → BrowseResponse) (t : String)
    (other : BrowseResponse) (otherFetch : Nat → BrowseResponse)
    (hinit : (parseAlbumSongs init).continuation = some t)
    (ht : t.isEmpty = false)
    (hecho : ∀ k, albumSongsNextCont (fetch k) = some t) :
    (albumSongs init fetch).2 = 1 ∧ (albumSongs other otherFetch).2 ≤ 50 := by
  constructor
  · show (albumSongsLoop fetch 50 (parseAlbumSongs init).continuation []
      ((parseAlbumSongs init).songs.map Item.song) 0).2 = 1
    rw [hinit, show (50 : Nat) = 49 + 1 from rfl, albumSongsLoop_succ, ht, hecho 0,
      show (49 : Nat) = 48 + 1 from rfl, albumSongsLoop_succ, ht]
    simp [List.contains]
  · exact albumSongsLoop_le otherFetch 50 _ [] _ 0

/-- Initial album browse response handing out the token ECHO. -/
def initC4 : BrowseResponse :=
  { contentsTwoColumn := some
      { secondaryContents := some
          { sectionListContents := some
              [ { musicPlaylistShelfRenderer := some
                    { continuations := some
                        [ { nextContinuationData := some
                              { continuation := some "ECHO" } } ] } } ] } } }

/-- Resume stream every page of which echoes the token ECHO. -/
def fetchC4 : Nat → BrowseResponse := fun _ =>
  { continuationContents := some
      { musicPlaylistShelfContinuation := some
          { continuations := some
              [ { nextContinuationData := some { continuation := some "ECHO" } } ] } } }

/-- Witness for the C4 theorem on the constant-echo stream. -/
theorem albumSongs_call_cap_and_echo_termination_witness :
    (albumSongs initC4 fetchC4).2 = 1 ∧ (albumSongs initC4 fetchC4).2 ≤ 50 :=
  albumSongs_call_cap_and_echo_termination initC4 fetchC4 "ECHO" initC4 fetchC4
    rfl rfl (fun _ => rfl)

/-- Claim C7: when the playlist header block is missing and the shelf's
first entry is a song fragment, parsePlaylistPage still returns a playlist
descriptor whose author is the first UC-marked byline run of that fragment
and whose thumbnail is the fragment's own last thumbnail url. -/
theorem parsePlaylistPage_headerless_fallback
    (resp : BrowseResponse) (pid : String)
    (ps : MusicPlaylistShelfRenderer) (r0 : MusicResponsiveListItemRenderer)
    (ru : Run) (u : String)
    (hheader : playlistHeader resp = none)
    (hshelf : playlistShelf resp = some ps)
    (hfirst : firstShelfRenderer resp = some r0)
    (_hsong : (parseMusicResponsiveListItemRenderer (some r0)).map Item.tag
      = some ItemTag.song)
    (hartist : (fragAllRuns r0).find? (fun r => oStartsWith (runBrowseId r) "UC") = some ru)
    (hthumb : jsOrNull (fragLastThumbUrl r0) = some u) :
    (parsePlaylistPage resp pid).isSome = true
    ∧ (parsePlaylistPage resp pid).map (fun res => res.playlist.author)
        = some (some { name := ru.text, id := runBrowseId ru })
    ∧ (parsePlaylistPage resp pid).map (fun res => res.playlist.thumbnail)
        = some (some u) := by
  simp only [parsePlaylistPage, hheader, hshelf, hfirst, Option.isSome_some, Bool.or_true,
    if_true, Option.bind_some]
  simp [hartist, hthumb]

/-- UC-marked byline run of the C7 witness fragment. -/
def runC7 : Run :=
  { text := some "The Artist"
    navigationEndpoint := some { browseEndpoint := some { browseId := some "UCc7author" } } }

/-- First (and only) song fragment of the C7 witness playlist page. -/
def fragC7 : MusicResponsiveListItemRenderer :=
  { playlistItemData := some { videoId := some "vidc7" }
    flexColumns := some
      [ { text := some { runs := some [ { text := some "Song c7" } ] } },
        { text := some { runs := some [ runC7 ] } } ]
    thumbnail := some
      { thumbnails := some [ { url := some "c7-small.jpg" }, { url := some "c7-large.jpg" } ] } }

/-- Playlist shelf of the C7 witness page. -/
def psC7 : MusicPlaylistShelfRenderer :=
  { contents := some [ { musicResponsiveListItemRenderer := some fragC7 } ] }

/-- Headerless playlist response of the C7 witness. -/
def respC7 : BrowseResponse :=
  { contentsTwoColumn := some
      { tabsFirstSectionContents := some []
        secondaryContents := some
          { sectionListContents := some [ { musicPlaylistShelfRenderer := some psC7 } ] } } }

/-- Witness for the C7 theorem on a concrete headerless playlist page. -/
theorem parsePlaylistPage_headerless_fallback_witness :
    (parsePlaylistPage respC7 "PLC7").isSome = true
    ∧ (parsePlaylistPage respC7 "PLC7").map (fun res => res.playlist.author)
        = some (some { name := runC7.text, id := runBrowseId runC7 })
    ∧ (parsePlaylistPage respC7 "PLC7").map (fun res => res.playlist.thumbnail)
        = some (some "c7-large.jpg") :=
  parsePlaylistPage_headerless_fallback respC7 "PLC7" psC7 fragC7 runC7 "c7-large.jpg"
    rfl rfl rfl rfl rfl rfl

/-- Claim C8: both song mappers select the duration exactly as the spec
states: the fixed-width duration column text when it is present, otherwise
the trailing secondary-line fragment only when it matches the strict clock
pattern, and null in every other case. -/
theorem song_duration_selection
    (r1 : MusicResponsiveListItemRenderer) (alb : Option AlbumCtx)
    (r2 : MusicResponsiveListItemRenderer)
    (h1 : (sTruthy (mrlirTitle r1) || sTruthy (mrlirVideoId r1)) = true)
    (hc1 : (mrlirPageType r2 == some "MUSIC_PAGE_TYPE_ARTIST"
        || oStartsWith (mrlirBrowseId r2) "UC") = false)
    (hc2 : (mrlirPageType r2 == some "MUSIC_PAGE_TYPE_ALBUM") = false)
    (hc3 : (mrlirPageType r2 == some "MUSIC_PAGE_TYPE_PLAYLIST") = false)
    (hc4 : (sTruthy (mrlirVideoId r2) || sTruthy (mrlirTitle r2)) = true) :
    (parseAlbumSong (some r1) alb).map SongItem.duration
      = some (durationSelectionSpec r1)
    ∧ (parseMusicResponsiveListItemRenderer (some r2)).map Item.durationOf
      = some (durationSelectionSpec r2) := by
  constructor
  · cases ht : sTruthy (mrlirTitle r1) <;> cases hv : sTruthy (mrlirVideoId r1) <;>
      simp_all [parseAlbumSong, durationSelectionSpec]
  · simp [parseMusicResponsiveListItemRenderer, hc1, hc2, hc3, hc4, Item.durationOf,
      durationSelectionSpec]

/-- Fragment with a fixed duration column, for the C8 witness. -/
def fragC8a : MusicResponsiveListItemRenderer :=
  { flexColumns := some [ { text := some { runs := some [ { text := some "Track c8" } ] } } ]
    fixedColumns := some [ { text := some { runs := some [ { text := some "3:45" } ] } } ] }

/-- Fragment without a fixed column whose trailing secondary run is a
clock-shaped string, for the C8 witness. -/
def fragC8b : MusicResponsiveListItemRenderer :=
  { playlistItemData := some { videoId := some "vidc8" }
    flexColumns := some
      [ { text := some { runs := some [ { text := some "Track c8b" } ] } },
        { text := some
            { runs := some [ { text := some "Someone" }, { text := some "12:07" } ] } } ] }

/-- Witness for the C8 theorem at two concrete song fragments. -/
theorem song_duration_selection_witness :
    (parseAlbumSong (some fragC8a) none).map SongItem.duration
      = some (durationSelectionSpec fragC8a)
    ∧ (parseMusicResponsiveListItemRenderer (some fragC8b)).map Item.durationOf
      = some (durationSelectionSpec fragC8b) :=
  song_duration_selection fragC8a none fragC8b rfl rfl rfl rfl rfl

/-- Claim C9: queue raises, issuing no transport request, exactly when a
non-null videoIds list longer than MAX_GET_QUEUE_SIZE is supplied, and
otherwise issues the getQueue transport request with the given arguments. -/
theorem queue_size_guard (v : Option (List String)) (p : Option String) :
    queue v p =
      if (v.getD []).length > MAX_GET_QUEUE_SIZE then
        Except.error ("Max queue size is " ++ toString MAX_GET_QUEUE_SIZE)
      else Except.ok { videoIds := v, playlistId := p } := by
  cases v with
  | none =>
    rw [if_neg]
    · rfl
    · simp [MAX_GET_QUEUE_SIZE]
  | some l => rfl

/-- Claim C10: artistAlbumsContinuation leaves the stored visitorData of
the client exactly as it was, whatever the transport outcome, and the
browse call itself sees the supplied visitorData installed when truthy
(the stored one otherwise). -/
theorem artistAlbumsContinuation_visitorData_frame
    (st : InnerTubeState) (c : String) (vd : Option String)
    (fetch : InnerTubeState → String → Except String BrowseResponse) :
    (artistAlbumsContinuation st c vd fetch).2.visitorData = st.visitorData
    ∧ (artistAlbumsContinuation st c vd fetch).1 =
        artistAlbumsContParse
          (fetch { st with visitorData := if sTruthy vd then vd else st.visitorData } c) vd := by
  constructor
  · rfl
  · cases h : sTruthy vd <;> simp [artistAlbumsContinuation, h]

end BeatApi
